import Mathlib

/-!
Shallow embedding of `pantalaimon/daemon.py` (the `ProxyDaemon` class) in Lean 4,
together with theorems settling the claims about it.

Modelling conventions:
* Python dicts used as string-keyed maps become association lists
  (`List (String × α)`) with first-match lookup, mirroring dict lookup.
* `aiohttp` requests are modelled by a `Request` structure holding the pieces
  the daemon reads: method, path, query parameters, headers, raw body, the
  result of `request.json()` (`none` on `JSONDecodeError`/`ContentTypeError`),
  and the match-info path segments.
* `web.Response(status=…, text=…)` / `web.Response(status=…, body=…,
  content_type=…)` become the `Response` structure.
* Handlers that end by forwarding over the network return an action value
  (`reply …` vs `forward …`) rather than performing I/O; the outcome of an
  external SDK call a handler branches on (e.g. `room_send`) is passed in as
  an explicit argument.
* Python truthiness on strings/lists/dicts (empty means false) is spelled out
  at each use site.
-/

namespace Pantalaimon

/-- An HTTP response as built by `aiohttp.web.Response`: a status code, a body
(given via `text=` or `body=`), and an optional explicit content type. -/
structure Response where
  status : Nat
  body : String
  contentType : Option String := none
deriving Repr, DecidableEq

/-- Body text of `ProxyDaemon._missing_token`:
`json.dumps({"errcode": "M_MISSING_TOKEN", "error": "Missing access token."})`. -/
def missingTokenText : String :=
  "\x7b\"errcode\": \"M_MISSING_TOKEN\", \"error\": \"Missing access token.\"\x7d"

/-- Body text of `ProxyDaemon._unknown_token`:
`json.dumps({"errcode": "M_UNKNOWN_TOKEN", "error": "Unrecognised access token."})`. -/
def unknownTokenText : String :=
  "\x7b\"errcode\": \"M_UNKNOWN_TOKEN\", \"error\": \"Unrecognised access token.\"\x7d"

/-- Body text of `ProxyDaemon._not_json` (and of the login handler's 500
variant): `json.dumps({"errcode": "M_NOT_JSON", "error": "Request did not
contain valid JSON."})`. -/
def notJsonText : String :=
  "\x7b\"errcode\": \"M_NOT_JSON\", \"error\": \"Request did not contain valid JSON.\"\x7d"

/-- `ProxyDaemon._missing_token`: a 401 response with the M_MISSING_TOKEN body. -/
def missing_token : Response := ⟨401, missingTokenText, none⟩

/-- `ProxyDaemon._unknown_token`: a 401 response with the M_UNKNOWN_TOKEN body. -/
def unknown_token : Response := ⟨401, unknownTokenText, none⟩

/-- `ProxyDaemon._not_json`: a 400 response with the M_NOT_JSON body. -/
def not_json : Response := ⟨400, notJsonText, none⟩

/-- First-match lookup in an association list, as Python dict lookup
(`d[k]` / `d.get(k)`). -/
def alookup (l : List (String × α)) (k : String) : Option α :=
  match l with
  | [] => none
  | (k', v) :: rest => if k' = k then some v else alookup rest k

/-- A downstream HTTP request, holding exactly the pieces of
`aiohttp.web.BaseRequest` that `ProxyDaemon` reads. `jsonBody` is the result
of `await request.json()`: `none` when that raises `JSONDecodeError` or
`ContentTypeError`.  `matchInfo` holds the resolved path segments
(`request.match_info`). -/
structure Request (β : Type) where
  method : String
  path : String
  query : List (String × String)
  headers : List (String × String)
  rawBody : String
  jsonBody : Option β
  matchInfo : List (String × String)
deriving Repr

/-- The character set of the Python string `"Bearer "`, as used by
`str.strip("Bearer ")`: `strip` treats its argument as a set of characters. -/
def bearerChars : List Char := ['B', 'e', 'a', 'r', ' ']

/-- Python `s.strip(chars)`: remove all leading and trailing characters of `s`
that are members of `chars`. -/
def pyStrip (chars : List Char) (s : String) : String :=
  let l := (s.toList.dropWhile (fun c => c ∈ chars)).reverse
  String.mk ((l.dropWhile (fun c => c ∈ chars)).reverse)

/-- `ProxyDaemon.get_access_token`: read the `access_token` query parameter
(defaulting to `""`); if that is falsy (empty), take the `Authorization`
header (defaulting to `""`) and apply `.strip("Bearer ")` to it. -/
def get_access_token (request : Request β) : String :=
  let access_token := (alookup request.query "access_token").getD ""
  if access_token = "" then
    pyStrip bearerChars ((alookup request.headers "Authorization").getD "")
  else
    access_token

/-- The `room.timeline` part of a Matrix filter: the two keys
`sanitize_filter` touches, each `none` when the key is absent. -/
structure TimelineFilter where
  types : Option (List String)
  not_types : Option (List String)
deriving Repr, DecidableEq

/-- The `room` part of a Matrix filter: `timeline` is `none` when the key is
absent. -/
structure RoomFilter where
  timeline : Option TimelineFilter
deriving Repr, DecidableEq

/-- A Matrix filter object, restricted to the paths `sanitize_filter` reads:
`room` is `none` when the key is absent. -/
structure Filter where
  room : Option RoomFilter
deriving Repr, DecidableEq

/-- `ProxyDaemon.sanitize_filter`.  The Python code guards each level with a
truthiness test (`if room_filter:`, `if timeline_filter:`, `if types_filter:`,
`if not_types_filter:`); for the two leaf lists an empty list is falsy, so an
empty `types` list is left alone.  `types` gains `"m.room.encrypted"` when the
list is non-empty and does not already contain it; `not_types.remove` deletes
the first occurrence of `"m.room.encrypted"` and the `ValueError` for a
missing element is swallowed (`List.erase` has exactly this behaviour).
A truthy dict whose relevant key is missing behaves identically to a falsy
one (every subsequent step is a `.get` returning `None`), so dict truthiness
does not need separate modelling. -/
def sanitize_filter (sync_filter : Filter) : Filter :=
  match sync_filter.room with
  | none => sync_filter
  | some room_filter =>
    match room_filter.timeline with
    | none => sync_filter
    | some timeline_filter =>
      let types' : Option (List String) :=
        match timeline_filter.types with
        | none => none
        | some ts =>
          if ts = [] then some ts
          else if "m.room.encrypted" ∈ ts then some ts
          else some (ts ++ ["m.room.encrypted"])
      let not_types' : Option (List String) :=
        match timeline_filter.not_types with
        | none => none
        | some ns =>
          if ns = [] then some ns
          else some (ns.erase "m.room.encrypted")
      { room := some { timeline := some { types := types', not_types := not_types' } } }

/-- `pantalaimon.store.ClientInfo`: the binding of a downstream access token to
a user id, stored in `ProxyDaemon.client_info`. -/
structure ClientInfo where
  user_id : String
  access_token : String
deriving Repr, DecidableEq

/-- A room as seen in a `PanClient`'s room table: only the `encrypted` flag is
read by the daemon. -/
structure PanRoom where
  encrypted : Bool
deriving Repr, DecidableEq

/-- A device as held in a shadow client's device store. -/
structure Device where
  id : String
  user_id : String
deriving Repr, DecidableEq

/-- The shadow client (`pantalaimon.client.PanClient`), restricted to the state
and SDK calls the daemon reads.  The outcome of each external SDK call the
daemon branches on is a field: `verify_device`/`unverify_device` return the
SDK's "changed" boolean; `export_keys_result`/`import_keys_result` are `ok` on
success and carry the stringified `OSError` (for import also
`EncryptionError`) on failure. -/
structure PanClient where
  user_id : String
  access_token : String
  rooms : List (String × PanRoom)
  device_store : List (String × List (String × Device))
  verify_device : Device → Bool
  unverify_device : Device → Bool
  export_keys_result : Except String Unit
  import_keys_result : Except String Unit

/-- The mutable tables of `ProxyDaemon`: `client_info` maps access tokens to
`ClientInfo`, `pan_clients` maps user ids to shadow clients. -/
structure DaemonState where
  client_info : List (String × ClientInfo)
  pan_clients : List (String × PanClient)

/-- Result of the shared authentication prologue of the `sync`, `messages` and
`send_message` handlers. -/
inductive AuthResult where
  | reply (r : Response)
  | ok (client : PanClient)

/-- The authentication prologue shared verbatim by `ProxyDaemon.sync`
(lines 527–536), `ProxyDaemon.messages` (580–589) and
`ProxyDaemon.send_message` (619–628): extract the token, answer
`_missing_token` when it is empty, then run
`client_info[token]; pan_clients[client_info.user_id]` inside a single
`try/except KeyError` whose handler answers `_unknown_token` — so a token
bound in `client_info` whose user has no shadow client also yields
`_unknown_token`. -/
def authenticate (st : DaemonState) (request : Request β) : AuthResult :=
  let access_token := get_access_token request
  if access_token = "" then .reply missing_token
  else
    match alookup st.client_info access_token with
    | none => .reply unknown_token
    | some client_info =>
      match alookup st.pan_clients client_info.user_id with
      | none => .reply unknown_token
      | some client => .ok client

/-- What an authenticated GET handler does next: answer directly, or carry on
(forward upstream, decrypt, …) with the resolved shadow client. -/
inductive AuthedAction where
  | reply (r : Response)
  | proceed (client : PanClient)

/-- `ProxyDaemon.sync`, up to its authentication prologue (lines 526–536); the
filter rewriting, upstream forward and decryption that follow are abstracted
as `proceed client`. -/
def sync (st : DaemonState) (request : Request β) : AuthedAction :=
  match authenticate st request with
  | .reply r => .reply r
  | .ok client => .proceed client

/-- `ProxyDaemon.messages`, up to its authentication prologue (lines
579–589); the upstream forward and decryption that follow are abstracted as
`proceed client`. -/
def messages (st : DaemonState) (request : Request β) : AuthedAction :=
  match authenticate st request with
  | .reply r => .reply r
  | .ok client => .proceed client

/-- Outcome of `PanClient.room_send`: success carries the SDK's underlying
`transport_response` (status, content type, body); the two exception cases
carry the stringified error. -/
inductive RoomSendResult where
  | ok (status : Nat) (contentType : String) (body : String)
  | clientConnectionError (e : String)
  | sendRetryError (e : String)
deriving Repr, DecidableEq

/-- The response `ProxyDaemon.send_message` builds from a `room_send`
outcome (lines 651–662): `ClientConnectionError` → 500 with the error text,
`SendRetryError` → 503 with the error text, success → the transport
response's status, content type and body. -/
def room_send_response : RoomSendResult → Response
  | .ok status contentType body => ⟨status, body, some contentType⟩
  | .clientConnectionError e => ⟨500, e, none⟩
  | .sendRetryError e => ⟨503, e, none⟩

/-- Action taken by `ProxyDaemon.send_message`: a direct reply, a
`forward_to_web` of the original request (with `none` or the shadow client's
token), or a `room_send` call whose translated response is recorded
alongside its arguments. -/
inductive SendAction where
  | reply (r : Response)
  | forward (token : Option String)
  | roomSend (room_id event_type txnid content : String) (reply : Response)
deriving Repr, DecidableEq

/-- `ProxyDaemon.send_message` (lines 618–662).  After authentication the
room id is looked up in the shadow client's room table (`KeyError` →
catch-all forward without a token); an unencrypted room is forwarded with the
shadow client's token; for an encrypted room the body is parsed
(`_not_json` on failure) and handed to `room_send`, whose outcome —
supplied here as the `sendResult` argument — is translated by
`room_send_response`.  The body type is `String`, standing for the parsed
JSON content passed through to `room_send` opaquely. -/
def send_message (st : DaemonState) (request : Request String)
    (sendResult : RoomSendResult) : SendAction :=
  match authenticate st request with
  | .reply r => .reply r
  | .ok client =>
    let room_id := (alookup request.matchInfo "room_id").getD ""
    match alookup client.rooms room_id with
    | none => .forward none
    | some room =>
      if !room.encrypted then .forward (some client.access_token)
      else
        let msgtype := (alookup request.matchInfo "event_type").getD ""
        let txnid := (alookup request.matchInfo "txnid").getD ""
        match request.jsonBody with
        | none => .reply not_json
        | some content => .roomSend room_id msgtype txnid content (room_send_response sendResult)

/-- Action taken by `ProxyDaemon.filter`: a direct reply, or a
`forward_to_web` of the request with the sanitized filter as the substituted
body. -/
inductive FilterAction where
  | reply (r : Response)
  | forwardData (data : Filter)
deriving Repr, DecidableEq

/-- `ProxyDaemon.filter` (lines 664–680): extract the token and answer
`_missing_token` when it is empty — there is no `client_info` lookup in this
handler — then parse the body (`_not_json` on failure), sanitize it and
forward it.  The daemon state is taken as an argument to make its non-use
explicit. -/
def filter (st : DaemonState) (request : Request Filter) : FilterAction :=
  let _ := st
  let access_token := get_access_token request
  if access_token = "" then .reply missing_token
  else
    match request.jsonBody with
    | none => .reply not_json
    | some content => .forwardData (sanitize_filter content)

/-- A login request body, restricted to the keys the login handler reads. -/
structure LoginBody where
  identifier : Option (List (String × String))
  user : Option String
  password : Option String
deriving Repr

/-- `ProxyDaemon._get_login_user` (lines 364–375): prefer
`body.identifier.user`, falling back to `body.user` (default `""`) when the
identifier is absent/falsy or its `user` entry is absent/empty. -/
def _get_login_user (body : LoginBody) : String :=
  match body.identifier with
  | some identifier =>
    let user := (alookup identifier "user").getD ""
    if user = "" then body.user.getD "" else user
  | none => body.user.getD ""

/-- Action taken by `ProxyDaemon.login`: a direct reply, or the continuation
(forward upstream, possibly start a shadow client) with the extracted user
and password. -/
inductive LoginAction where
  | reply (r : Response)
  | proceed (user : String) (password : String)
deriving Repr

/-- `ProxyDaemon.login`, up to body parsing (lines 415–437): a body that
fails to parse as JSON is answered with HTTP 500 and the M_NOT_JSON text
(the source documents this as a workaround for an aiohttp bug); otherwise
the user and password are extracted and the handler proceeds to forward the
request upstream (abstracted as `proceed`). -/
def login (request : Request LoginBody) : LoginAction :=
  match request.jsonBody with
  | none => .reply ⟨500, notJsonText, none⟩
  | some body => .proceed (_get_login_user body) (body.password.getD "")

/-- Remove every entry under key `k`, as `CIMultiDict.pop(k, None)` on a
header/parameter map without duplicate keys (the daemon never creates
duplicates). -/
def removeKey : List (String × String) → String → List (String × String)
  | [], _ => []
  | (k', v) :: rest, k =>
    if k' = k then removeKey rest k else (k', v) :: removeKey rest k

/-- Overwrite the value under key `k`, as `d[k] = v` on a map in which `k` is
already present. -/
def setKey : List (String × String) → String → String → List (String × String)
  | [], _, _ => []
  | (k', v') :: rest, k, v =>
    if k' = k then (k, v) :: setKey rest k v else (k', v') :: setKey rest k v

/-- `k in d` on a header/parameter map. -/
def containsKey (l : List (String × String)) (k : String) : Bool :=
  (alookup l k).isSome

/-- The outgoing upstream request assembled by `forward_request`, i.e. the
arguments of the final `session.request(...)` call. -/
structure ForwardedRequest where
  method : String
  url : String
  headers : List (String × String)
  params : List (String × String)
  body : String
deriving Repr, DecidableEq

/-- `ProxyDaemon.forward_request` (lines 260–317), with the session plumbing
(lines 282–287) and the network send abstracted away; the function returns
the request it would hand to `session.request`.  Faithful points: headers
are copied with `Host` popped; `params = params or CIMultiDict(request.query)`
falls back to the request's query also when an *empty* params map is passed
(an empty multidict is falsy); `if token:` treats an empty-string token as
absent; the rewrite touches the `Authorization` header and `access_token`
parameter only when each is present; `if data:` treats an empty-string body
as absent, so only a non-empty substituted body pops `Content-Length`,
otherwise the original raw body is read and sent. -/
def forward_request (homeserver_url : String) (request : Request β)
    (params : Option (List (String × String))) (data : Option String)
    (token : Option String) : ForwardedRequest :=
  let path := request.path
  let method := request.method
  let headers := removeKey request.headers "Host"
  let params' :=
    match params with
    | some p => if p = [] then request.query else p
    | none => request.query
  let headers :=
    match token with
    | some t =>
      if t = "" then headers
      else if containsKey headers "Authorization" then
        setKey headers "Authorization" ("Bearer " ++ t)
      else headers
    | none => headers
  let params' :=
    match token with
    | some t =>
      if t = "" then params'
      else if containsKey params' "access_token" then setKey params' "access_token" t
      else params'
    | none => params'
  let bodyAndHeaders : String × List (String × String) :=
    match data with
    | some d => if d = "" then (request.rawBody, headers)
                else (d, removeKey headers "Content-Length")
    | none => (request.rawBody, headers)
  { method := method
    url := homeserver_url ++ path
    headers := bodyAndHeaders.2
    params := params'
    body := bodyAndHeaders.1 }

/-- Outcome of one strict decryption call
(`decrypt_sync_body`/`decrypt_messages_body` with `ignore_failures=False`):
either the decrypted body or a raised `EncryptionError`. -/
inductive DecryptOutcome (α : Type) where
  | success (v : α)
  | encryptionError
deriving Repr, DecidableEq

/-- The decryption interface of a shadow client for one fixed response body.
`strict i` is the outcome of the `i`-th strict attempt — the state of the key
store after `i` awaited `synced` edges; `lenient` is the result of the one
call with `ignore_failures=True`, which never raises (undecryptable events
are left in place). -/
structure DecryptClient (α : Type) where
  decrypt_sync_strict : Nat → DecryptOutcome α
  decrypt_sync_lenient : α
  decrypt_messages_strict : Nat → DecryptOutcome α
  decrypt_messages_lenient : α

/-- The inner `decrypt_loop` of `ProxyDaemon.decrypt_body` (lines 503–515):
attempt strict decryption; on `EncryptionError` await the client's `synced`
edge and retry.  `i` counts the attempts made so far; `fuel` is the number of
further attempts the `decryption_timeout` wall-clock budget admits
(modelling `asyncio.wait_for`'s deadline), `none` meaning the deadline
expires before another attempt succeeds. -/
def decrypt_loop (strict : Nat → DecryptOutcome α) : Nat → Nat → Option α
  | _, 0 => none
  | i, fuel + 1 =>
    match strict i with
    | .success v => some v
    | .encryptionError => decrypt_loop strict (i + 1) fuel

/-- `ProxyDaemon.decryption_timeout` (line 43), in seconds. -/
def decryption_timeout : Nat := 10

/-- `ProxyDaemon.decrypt_body` (lines 497–524): pick the mode-appropriate
decryption method (`sync=True` → `decrypt_sync_body`, otherwise
`decrypt_messages_body`), run `decrypt_loop` under `asyncio.wait_for`, and on
`asyncio.TimeoutError` return one lenient call (`ignore_failures=True`).
Wall-clock time is abstracted: `fuel` is the number of strict attempts that
fit into the `decryption_timeout` budget. -/
def decrypt_body (client : DecryptClient α) (fuel : Nat) (sync : Bool := true) : α :=
  let strict := if sync then client.decrypt_sync_strict else client.decrypt_messages_strict
  let lenient := if sync then client.decrypt_sync_lenient else client.decrypt_messages_lenient
  match decrypt_loop strict 0 fuel with
  | some v => v
  | none => lenient

/-- The control messages of `pantalaimon.thread_messages` that
`receive_message` dispatches on.  Each carries `message_id` and `pan_user`;
the device messages carry the target `(user_id, device_id)`, the key
messages a file path and passphrase.  `file_path` here stands for the
already-expanded absolute path (`os.path.abspath(os.path.expanduser(...))`
is filesystem-environment detail). -/
inductive ControlMessage where
  | deviceVerify (message_id pan_user user_id device_id : String)
  | deviceUnverify (message_id pan_user user_id device_id : String)
  | acceptSas (message_id pan_user : String)
  | confirmSas (message_id pan_user : String)
  | exportKeys (message_id pan_user file_path passphrase : String)
  | importKeys (message_id pan_user file_path passphrase : String)
deriving Repr, DecidableEq

/-- `pantalaimon.thread_messages.DaemonResponse`: the reply the daemon puts
on the UI output queue. -/
structure DaemonResponse where
  message_id : String
  pan_user : String
  code : String
  message : String
deriving Repr, DecidableEq

/-- How one `receive_message` dispatch ends: normal completion with the list
of `DaemonResponse`s put on the output queue, or an uncaught Python
exception (named by the carried string) propagating out of the coroutine. -/
inductive DispatchResult where
  | completed (responses : List DaemonResponse)
  | raised (exception : String)
deriving Repr, DecidableEq

/-- `client.device_store[user_id].get(device_id, None)` (lines 132–135):
nio's `DeviceStore.__getitem__` is backed by a `defaultdict`, so an unknown
user yields an empty device dict rather than a `KeyError`. -/
def device_store_get (client : PanClient) (user_id device_id : String) : Option Device :=
  alookup ((alookup client.device_store user_id).getD []) device_id

/-- `ProxyDaemon._verify_device` (lines 93–104): call the SDK's
`verify_device`, build the log/confirmation message from its "changed"
boolean, and reply `m.ok` either way. -/
def _verify_device (message_id : String) (client : PanClient) (device : Device) :
    DaemonResponse :=
  let msg :=
    if client.verify_device device then
      "Device " ++ device.id ++ " of user " ++ device.user_id ++ " succesfully verified"
    else
      "Device " ++ device.id ++ " of user " ++ device.user_id ++ " already verified"
  ⟨message_id, client.user_id, "m.ok", msg⟩

/-- `ProxyDaemon._unverify_device` (lines 106–117): as `_verify_device` for
`unverify_device`. -/
def _unverify_device (message_id : String) (client : PanClient) (device : Device) :
    DaemonResponse :=
  let msg :=
    if client.unverify_device device then
      "Device " ++ device.id ++ " of user " ++ device.user_id ++ " succesfully unverified"
    else
      "Device " ++ device.id ++ " of user " ++ device.user_id ++ " already unverified"
  ⟨message_id, client.user_id, "m.ok", msg⟩

/-- `ProxyDaemon.receive_message` (lines 124–213).  The first line is
`client = self.pan_clients.get(message.pan_user)`, which yields `None` for an
unknown `pan_user`; no branch checks for `None`, so every subsequent use of
`client` then raises `AttributeError` — for the device messages at
`client.device_store` (line 132), for SAS at `client.accept_sas`/
`client.confirm_sas`, for key export/import at `client.export_keys`/
`client.import_keys` (the surrounding `try` blocks catch only
`OSError`/`EncryptionError`, not `AttributeError`).  With a known client:
an unresolved device yields an `m.unknown_device` response; verify/unverify
reply `m.ok` via `_verify_device`/`_unverify_device`; SAS messages delegate
to the SDK and emit no response; key export/import reply `m.os_error` with
the stringified error on failure and `m.ok` with a confirmation on
success. -/
def receive_message (st : DaemonState) (message : ControlMessage) : DispatchResult :=
  match message with
  | .deviceVerify message_id pan_user user_id device_id =>
    match alookup st.pan_clients pan_user with
    | none => .raised "AttributeError"
    | some client =>
      match device_store_get client user_id device_id with
      | none => .completed
          [⟨message_id, pan_user, "m.unknown_device",
            "No device found for " ++ user_id ++ " and " ++ device_id⟩]
      | some device => .completed [_verify_device message_id client device]
  | .deviceUnverify message_id pan_user user_id device_id =>
    match alookup st.pan_clients pan_user with
    | none => .raised "AttributeError"
    | some client =>
      match device_store_get client user_id device_id with
      | none => .completed
          [⟨message_id, pan_user, "m.unknown_device",
            "No device found for " ++ user_id ++ " and " ++ device_id⟩]
      | some device => .completed [_unverify_device message_id client device]
  | .acceptSas _ pan_user =>
    match alookup st.pan_clients pan_user with
    | none => .raised "AttributeError"
    | some _ => .completed []
  | .confirmSas _ pan_user =>
    match alookup st.pan_clients pan_user with
    | none => .raised "AttributeError"
    | some _ => .completed []
  | .exportKeys message_id pan_user file_path _ =>
    match alookup st.pan_clients pan_user with
    | none => .raised "AttributeError"
    | some client =>
      match client.export_keys_result with
      | .error e => .completed [⟨message_id, client.user_id, "m.os_error", e⟩]
      | .ok _ => .completed
          [⟨message_id, client.user_id, "m.ok",
            "Succesfully exported keys for " ++ client.user_id ++ " to " ++ file_path⟩]
  | .importKeys message_id pan_user file_path _ =>
    match alookup st.pan_clients pan_user with
    | none => .raised "AttributeError"
    | some client =>
      match client.import_keys_result with
      | .error e => .completed [⟨message_id, client.user_id, "m.os_error", e⟩]
      | .ok _ => .completed
          [⟨message_id, client.user_id, "m.ok",
            "Succesfully imported keys for " ++ client.user_id ++ " from " ++ file_path⟩]

/-- The value at the path `room.timeline.types` of a filter, when every key on
the path is present. -/
def Filter.timelineTypes (f : Filter) : Option (List String) :=
  ((f.room.bind fun r => r.timeline).bind fun t => t.types)

/-- The value at the path `room.timeline.not_types` of a filter, when every
key on the path is present. -/
def Filter.timelineNotTypes (f : Filter) : Option (List String) :=
  ((f.room.bind fun r => r.timeline).bind fun t => t.not_types)

/-! ### Concrete fixtures used by witnesses and counterexamples -/

/-- A shadow client with one encrypted and one unencrypted room and one known
device of `@bob`. -/
def alice : PanClient :=
  { user_id := "@alice:example.org"
    access_token := "SHADOWTOKEN"
    rooms := [("!enc:example.org", ⟨true⟩), ("!plain:example.org", ⟨false⟩)]
    device_store := [("@bob:example.org", [("BOBDEV", ⟨"BOBDEV", "@bob:example.org"⟩)])]
    verify_device := fun _ => true
    unverify_device := fun _ => true
    export_keys_result := .ok ()
    import_keys_result := .ok () }

/-- A daemon state in which the downstream token `DOWNTOKEN` is bound to
`@alice:example.org` and that user's shadow client is running. -/
def aliceState : DaemonState :=
  { client_info := [("DOWNTOKEN", ⟨"@alice:example.org", "DOWNTOKEN"⟩)]
    pan_clients := [("@alice:example.org", alice)] }

/-- A daemon state with no token bindings and no shadow clients. -/
def emptyState : DaemonState := ⟨[], []⟩

/-- A daemon state with the `DOWNTOKEN` binding recorded but no shadow client
for the bound user (e.g. the SDK login failed after the binding was saved). -/
def staleState : DaemonState :=
  { client_info := [("DOWNTOKEN", ⟨"@alice:example.org", "DOWNTOKEN"⟩)]
    pan_clients := [] }

/-- A GET request carrying the given query and headers and no body. -/
def getReq (query headers : List (String × String)) : Request Unit :=
  { method := "GET", path := "/_matrix/client/r0/sync", query := query
    headers := headers, rawBody := "", jsonBody := none, matchInfo := [] }

/-- A PUT send request for the given room, with the given token and parse
result of its body. -/
def sendReq (tok room : String) (body : Option String) : Request String :=
  { method := "PUT"
    path := "/_matrix/client/r0/rooms/" ++ room ++ "/send/m.room.message/1"
    query := [("access_token", tok)], headers := [], rawBody := ""
    jsonBody := body
    matchInfo := [("room_id", room), ("event_type", "m.room.message"), ("txnid", "1")] }

/-- A POST filter-upload request with the given token and parse result of its
body. -/
def filterReq (tok : String) (body : Option Filter) : Request Filter :=
  { method := "POST", path := "/_matrix/client/r0/user/@alice:example.org/filter"
    query := [("access_token", tok)], headers := [], rawBody := "n/a"
    jsonBody := body, matchInfo := [] }

/-! ### Helper lemmas -/

theorem alookup_removeKey_self (l : List (String × String)) (k : String) :
    alookup (removeKey l k) k = none := by
  induction l with
  | nil => rfl
  | cons p rest ih =>
    obtain ⟨a, b⟩ := p
    by_cases h : a = k
    · simpa [removeKey, h] using ih
    · simpa [removeKey, alookup, h] using ih

theorem alookup_removeKey_ne (l : List (String × String)) (k k' : String) (h : k' ≠ k) :
    alookup (removeKey l k) k' = alookup l k' := by
  induction l with
  | nil => rfl
  | cons p rest ih =>
    obtain ⟨a, b⟩ := p
    by_cases hp : a = k
    · have hkk' : ¬(k = k') := fun hc => h hc.symm
      simp [removeKey, alookup, hp, hkk', ih]
    · simp [removeKey, alookup, hp, ih]

theorem alookup_setKey_ne (l : List (String × String)) (k v k' : String) (h : k' ≠ k) :
    alookup (setKey l k v) k' = alookup l k' := by
  induction l with
  | nil => rfl
  | cons p rest ih =>
    obtain ⟨a, b⟩ := p
    by_cases hp : a = k
    · have hkk' : ¬(k = k') := fun hc => h hc.symm
      simp [setKey, alookup, hp, hkk', ih]
    · simp [setKey, alookup, hp, ih]

theorem alookup_setKey_isSome (l : List (String × String)) (k v : String)
    (h : (alookup l k).isSome) : alookup (setKey l k v) k = some v := by
  induction l with
  | nil => simp [alookup] at h
  | cons p rest ih =>
    obtain ⟨a, b⟩ := p
    by_cases hp : a = k
    · simp [setKey, alookup, hp]
    · simp only [alookup, hp, if_false] at h
      simp [setKey, alookup, hp, ih h]

theorem alookup_setKey_none (l : List (String × String)) (k v : String)
    (h : alookup l k = none) : alookup (setKey l k v) k = none := by
  induction l with
  | nil => rfl
  | cons p rest ih =>
    obtain ⟨a, b⟩ := p
    by_cases hp : a = k
    · simp [alookup, hp] at h
    · simp only [alookup, hp, if_false] at h
      simp [setKey, alookup, hp, ih h]

theorem authenticate_missing (st : DaemonState) (request : Request β)
    (h : get_access_token request = "") :
    authenticate st request = .reply missing_token := by
  simp [authenticate, h]

theorem authenticate_no_binding (st : DaemonState) (request : Request β)
    (h1 : get_access_token request ≠ "")
    (h2 : alookup st.client_info (get_access_token request) = none) :
    authenticate st request = .reply unknown_token := by
  simp [authenticate, h1, h2]

theorem authenticate_no_client (st : DaemonState) (request : Request β) (ci : ClientInfo)
    (h1 : get_access_token request ≠ "")
    (h2 : alookup st.client_info (get_access_token request) = some ci)
    (h3 : alookup st.pan_clients ci.user_id = none) :
    authenticate st request = .reply unknown_token := by
  simp [authenticate, h1, h2, h3]

/-- The action `sanitize_filter` performs on the `types` list when the
`room.timeline` path is present: append `"m.room.encrypted"` to a non-empty
list that lacks it; leave an absent key, an empty list, or a list already
containing it alone. -/
def typesStep : Option (List String) → Option (List String)
  | none => none
  | some ts =>
    if ts = [] then some ts
    else if "m.room.encrypted" ∈ ts then some ts
    else some (ts ++ ["m.room.encrypted"])

/-- The action `sanitize_filter` performs on the `not_types` list when the
`room.timeline` path is present: remove the first occurrence of
`"m.room.encrypted"` from a non-empty list; leave an absent key or an empty
list alone. -/
def notTypesStep : Option (List String) → Option (List String)
  | none => none
  | some ns =>
    if ns = [] then some ns
    else some (ns.erase "m.room.encrypted")

theorem sanitize_filter_timeline (ty nty : Option (List String)) :
    sanitize_filter ⟨some ⟨some ⟨ty, nty⟩⟩⟩ = ⟨some ⟨some ⟨typesStep ty, notTypesStep nty⟩⟩⟩ := by
  cases ty <;> cases nty <;> rfl

theorem typesStep_idem (ty : Option (List String)) : typesStep (typesStep ty) = typesStep ty := by
  cases ty with
  | none => rfl
  | some ts =>
    by_cases h1 : ts = []
    · simp [typesStep, h1]
    · by_cases h2 : "m.room.encrypted" ∈ ts
      · simp [typesStep, h1, h2]
      · have hne : ¬(ts ++ ["m.room.encrypted"] = []) := by simp
        have hmem : "m.room.encrypted" ∈ ts ++ ["m.room.encrypted"] := by simp
        simp [typesStep, h1, h2, hne, hmem]

theorem notTypesStep_idem (nty : Option (List String))
    (h : (nty.getD []).count "m.room.encrypted" ≤ 1) :
    notTypesStep (notTypesStep nty) = notTypesStep nty := by
  cases nty with
  | none => rfl
  | some ns =>
    by_cases h1 : ns = []
    · simp [notTypesStep, h1]
    · have hnot : "m.room.encrypted" ∉ ns.erase "m.room.encrypted" := by
        rw [← List.count_eq_zero, List.count_erase_self]
        simp only [Option.getD] at h
        omega
      by_cases h2 : ns.erase "m.room.encrypted" = []
      · simp [notTypesStep, h1, h2]
      · simp [notTypesStep, h1, h2, List.erase_of_not_mem hnot]

theorem forward_request_plain (hs : String) (request : Request β) :
    forward_request hs request none none none =
    ⟨request.method, hs ++ request.path, removeKey request.headers "Host",
     request.query, request.rawBody⟩ := rfl

theorem forward_request_with_data (hs : String) (request : Request β) (d : String)
    (hd : d ≠ "") :
    forward_request hs request none (some d) none =
    ⟨request.method, hs ++ request.path,
     removeKey (removeKey request.headers "Host") "Content-Length",
     request.query, d⟩ := by
  simp [forward_request, hd]

theorem forward_request_with_token (hs : String) (request : Request β) (t : String)
    (ht : t ≠ "") :
    forward_request hs request none none (some t) =
    ⟨request.method, hs ++ request.path,
     (if containsKey (removeKey request.headers "Host") "Authorization" then
        setKey (removeKey request.headers "Host") "Authorization" ("Bearer " ++ t)
      else removeKey request.headers "Host"),
     (if containsKey request.query "access_token" then setKey request.query "access_token" t
      else request.query),
     request.rawBody⟩ := by
  simp [forward_request, ht]

theorem forward_request_with_token_data (hs : String) (request : Request β) (t d : String)
    (ht : t ≠ "") (hd : d ≠ "") :
    forward_request hs request none (some d) (some t) =
    ⟨request.method, hs ++ request.path,
     removeKey
       (if containsKey (removeKey request.headers "Host") "Authorization" then
          setKey (removeKey request.headers "Host") "Authorization" ("Bearer " ++ t)
        else removeKey request.headers "Host") "Content-Length",
     (if containsKey request.query "access_token" then setKey request.query "access_token" t
      else request.query),
     d⟩ := by
  simp [forward_request, ht, hd]

theorem alookup_condSet_ne (l : List (String × String)) (key v k : String) (hk : k ≠ key) :
    alookup (if containsKey l key then setKey l key v else l) k = alookup l k := by
  by_cases hc : containsKey l key
  · rw [if_pos hc]
    exact alookup_setKey_ne l key v k hk
  · rw [if_neg hc]

theorem alookup_condSet_isSome (l : List (String × String)) (key v : String)
    (h : (alookup l key).isSome) :
    alookup (if containsKey l key then setKey l key v else l) key = some v := by
  rw [if_pos (show containsKey l key = true from h)]
  exact alookup_setKey_isSome l key v h

theorem alookup_condSet_none (l : List (String × String)) (key v : String)
    (h : alookup l key = none) :
    alookup (if containsKey l key then setKey l key v else l) key = none := by
  simp [containsKey, h]

/-! ### Claims -/

/-- Claim C1, counterexample: the Filter handler performs no token lookup at
all, so a request carrying the non-empty token `"secret"`, which is not in
the (empty) `client_info` table, is not answered with 401 M_UNKNOWN_TOKEN:
its body is sanitized and forwarded upstream. -/
theorem filter_unknown_token_not_rejected :
    filter emptyState (filterReq "secret" (some ⟨none⟩)) = .forwardData ⟨none⟩ ∧
    filter emptyState (filterReq "secret" (some ⟨none⟩)) ≠ .reply unknown_token := by
  exact ⟨rfl, by decide⟩

/-- Claim C1 (amended): on Sync, Messages and Send an empty extracted access
token yields exactly the 401 M_MISSING_TOKEN reply and a non-empty token
absent from `client_info` yields exactly the 401 M_UNKNOWN_TOKEN reply; the
Filter handler replies 401 M_MISSING_TOKEN on an empty token but validates
the token no further — with any non-empty token it proceeds to body parsing
and forwarding. -/
theorem endpoint_auth_spec (st : DaemonState)
    (reqG : Request Unit) (reqS : Request String) (reqF : Request Filter)
    (sr : RoomSendResult) :
    (get_access_token reqG = "" →
      sync st reqG = .reply missing_token ∧ messages st reqG = .reply missing_token) ∧
    (get_access_token reqS = "" → send_message st reqS sr = .reply missing_token) ∧
    (get_access_token reqF = "" → filter st reqF = .reply missing_token) ∧
    (get_access_token reqG ≠ "" → alookup st.client_info (get_access_token reqG) = none →
      sync st reqG = .reply unknown_token ∧ messages st reqG = .reply unknown_token) ∧
    (get_access_token reqS ≠ "" → alookup st.client_info (get_access_token reqS) = none →
      send_message st reqS sr = .reply unknown_token) ∧
    (∀ body, get_access_token reqF ≠ "" → reqF.jsonBody = some body →
      filter st reqF = .forwardData (sanitize_filter body)) := by
  refine ⟨?_, ?_, ?_, ?_, ?_, ?_⟩
  · intro h
    exact ⟨by simp [sync, authenticate_missing st reqG h],
           by simp [messages, authenticate_missing st reqG h]⟩
  · intro h
    simp [send_message, authenticate_missing st reqS h]
  · intro h
    simp [filter, h]
  · intro h1 h2
    exact ⟨by simp [sync, authenticate_no_binding st reqG h1 h2],
           by simp [messages, authenticate_no_binding st reqG h1 h2]⟩
  · intro h1 h2
    simp [send_message, authenticate_no_binding st reqS h1 h2]
  · intro body h1 h2
    simp [filter, h1, h2]

/-- Witness for `endpoint_auth_spec` at concrete requests against the empty
daemon state. -/
theorem endpoint_auth_spec_witness :
    sync emptyState (getReq [] []) = .reply missing_token ∧
    send_message emptyState (sendReq "" "!r:h" none) (.ok 200 "t" "b") = .reply missing_token ∧
    filter emptyState (filterReq "" none) = .reply missing_token ∧
    sync emptyState (getReq [("access_token", "secret")] []) = .reply unknown_token ∧
    messages emptyState (getReq [("access_token", "secret")] []) = .reply unknown_token ∧
    send_message emptyState (sendReq "secret" "!r:h" none) (.ok 200 "t" "b") =
      .reply unknown_token ∧
    filter emptyState (filterReq "secret" (some ⟨none⟩)) =
      .forwardData (sanitize_filter ⟨none⟩) := by
  have h1 := endpoint_auth_spec emptyState (getReq [] []) (sendReq "" "!r:h" none)
    (filterReq "" none) (.ok 200 "t" "b")
  have h2 := endpoint_auth_spec emptyState (getReq [("access_token", "secret")] [])
    (sendReq "secret" "!r:h" none) (filterReq "secret" (some ⟨none⟩)) (.ok 200 "t" "b")
  exact ⟨(h1.1 rfl).1, h1.2.1 rfl, h1.2.2.1 rfl,
         (h2.2.2.2.1 (by decide) rfl).1, (h2.2.2.2.1 (by decide) rfl).2,
         h2.2.2.2.2.1 (by decide) rfl,
         h2.2.2.2.2.2 ⟨none⟩ (by decide) rfl⟩

/-- Claim C2, counterexample: on the filter whose `room.timeline.types` is
the (existing) empty list and whose `room.timeline.not_types` holds two
occurrences of `"m.room.encrypted"`, the sanitizer neither adds
`"m.room.encrypted"` to `types` (the empty list is falsy, so the branch is
skipped) nor removes it from `not_types` (only the first occurrence is
removed). -/
theorem sanitize_filter_membership_cex :
    (Filter.timelineTypes ⟨some ⟨some ⟨some [], some ["m.room.encrypted", "m.room.encrypted"]⟩⟩⟩).isSome ∧
    "m.room.encrypted" ∉
      ((sanitize_filter ⟨some ⟨some ⟨some [], some ["m.room.encrypted", "m.room.encrypted"]⟩⟩⟩).timelineTypes.getD []) ∧
    (Filter.timelineNotTypes ⟨some ⟨some ⟨some [], some ["m.room.encrypted", "m.room.encrypted"]⟩⟩⟩).isSome ∧
    "m.room.encrypted" ∈
      ((sanitize_filter ⟨some ⟨some ⟨some [], some ["m.room.encrypted", "m.room.encrypted"]⟩⟩⟩).timelineNotTypes.getD []) := by
  decide

/-- Claim C2 (amended): whenever `room.timeline.types` exists *and is
non-empty*, `"m.room.encrypted"` is in the sanitized `types`; whenever
`room.timeline.not_types` exists *and holds at most one occurrence* of
`"m.room.encrypted"`, the sanitized `not_types` does not contain it. -/
theorem sanitize_filter_membership (F : Filter) :
    (∀ ts, F.timelineTypes = some ts → ts ≠ [] →
      ∃ ts', (sanitize_filter F).timelineTypes = some ts' ∧ "m.room.encrypted" ∈ ts') ∧
    (∀ ns, F.timelineNotTypes = some ns → ns.count "m.room.encrypted" ≤ 1 →
      ∃ ns', (sanitize_filter F).timelineNotTypes = some ns' ∧ "m.room.encrypted" ∉ ns') := by
  obtain ⟨room⟩ := F
  cases room with
  | none =>
    exact ⟨fun ts hts => by simp [Filter.timelineTypes] at hts,
           fun ns hns => by simp [Filter.timelineNotTypes] at hns⟩
  | some rf =>
    obtain ⟨tl⟩ := rf
    cases tl with
    | none =>
      exact ⟨fun ts hts => by simp [Filter.timelineTypes] at hts,
             fun ns hns => by simp [Filter.timelineNotTypes] at hns⟩
    | some t =>
      obtain ⟨ty, nty⟩ := t
      rw [sanitize_filter_timeline]
      constructor
      · intro ts hts hne
        have hty : ty = some ts := by simpa [Filter.timelineTypes] using hts
        subst hty
        by_cases hmem : "m.room.encrypted" ∈ ts
        · exact ⟨ts, by simp [Filter.timelineTypes, typesStep, hne, hmem], hmem⟩
        · exact ⟨ts ++ ["m.room.encrypted"],
            by simp [Filter.timelineTypes, typesStep, hne, hmem], by simp⟩
      · intro ns hns hcount
        have hnty : nty = some ns := by simpa [Filter.timelineNotTypes] using hns
        subst hnty
        by_cases hne : ns = []
        · subst hne
          exact ⟨[], by simp [Filter.timelineNotTypes, notTypesStep], by simp⟩
        · refine ⟨ns.erase "m.room.encrypted",
            by simp [Filter.timelineNotTypes, notTypesStep, hne], ?_⟩
          rw [← List.count_eq_zero, List.count_erase_self]
          omega

/-- Witness for `sanitize_filter_membership` at a concrete filter with a
non-empty `types` list and a single-occurrence `not_types` list. -/
theorem sanitize_filter_membership_witness :
    (∃ ts', (sanitize_filter ⟨some ⟨some ⟨some ["m.room.message"], some ["m.room.encrypted"]⟩⟩⟩).timelineTypes
        = some ts' ∧ "m.room.encrypted" ∈ ts') ∧
    (∃ ns', (sanitize_filter ⟨some ⟨some ⟨some ["m.room.message"], some ["m.room.encrypted"]⟩⟩⟩).timelineNotTypes
        = some ns' ∧ "m.room.encrypted" ∉ ns') := by
  have h := sanitize_filter_membership ⟨some ⟨some ⟨some ["m.room.message"], some ["m.room.encrypted"]⟩⟩⟩
  exact ⟨h.1 ["m.room.message"] rfl (by decide), h.2 ["m.room.encrypted"] rfl (by decide)⟩

/-- Claim C4, counterexample: `str.strip("Bearer ")` is a character-set
strip, not a prefix strip, so the `Authorization` header value `"BearXXX"`
yields the token `"XXX"`, not `"BearXXX"` as the claim asserts. -/
theorem get_access_token_strip_cex :
    get_access_token (getReq [] [("Authorization", "BearXXX")]) = "XXX" ∧
    get_access_token (getReq [] [("Authorization", "BearXXX")]) ≠ "BearXXX" := by
  exact ⟨by decide, by decide⟩

/-- Claim C4 (amended): extraction reads the `access_token` query parameter;
when that is empty or absent it reads the `Authorization` header and removes
all leading and trailing characters drawn from the set of the string
`"Bearer "` (Python's `str.strip`), so `"Bearer XXX"` yields `"XXX"` and
`"BearXXX"` also yields `"XXX"`; an empty result means the token is
absent. -/
theorem get_access_token_spec (request : Request β) :
    (∀ q, alookup request.query "access_token" = some q → q ≠ "" →
      get_access_token request = q) ∧
    ((alookup request.query "access_token").getD "" = "" →
      get_access_token request =
        pyStrip bearerChars ((alookup request.headers "Authorization").getD "")) ∧
    pyStrip bearerChars "Bearer XXX" = "XXX" ∧
    pyStrip bearerChars "BearXXX" = "XXX" := by
  refine ⟨?_, ?_, by decide, by decide⟩
  · intro q hq hne
    simp [get_access_token, hq, hne]
  · intro h
    simp [get_access_token, h]

/-- Witness for `get_access_token_spec`: the query token wins when non-empty,
and with no query token the header is char-stripped. -/
theorem get_access_token_spec_witness :
    get_access_token (getReq [("access_token", "QUERYTOK")] []) = "QUERYTOK" ∧
    get_access_token (getReq [] [("Authorization", "Bearer ABC")]) =
      pyStrip bearerChars "Bearer ABC" := by
  refine ⟨(get_access_token_spec _).1 "QUERYTOK" rfl (by decide), ?_⟩
  have h := (get_access_token_spec (getReq [] [("Authorization", "Bearer ABC")])).2.1 rfl
  simpa using h

/-- Claim C8, counterexample: on the filter whose `not_types` holds
`"m.room.encrypted"` twice, each application of the sanitizer removes one
occurrence (`list.remove` removes only the first), so applying it twice is
not the same as applying it once. -/
theorem sanitize_filter_not_idempotent :
    sanitize_filter (sanitize_filter ⟨some ⟨some ⟨none, some ["m.room.encrypted", "m.room.encrypted"]⟩⟩⟩) ≠
      sanitize_filter ⟨some ⟨some ⟨none, some ["m.room.encrypted", "m.room.encrypted"]⟩⟩⟩ := by
  decide

/-- Claim C8 (amended): the sanitizer is idempotent on every filter whose
`room.timeline.not_types` list, when present, holds at most one occurrence
of `"m.room.encrypted"`. -/
theorem sanitize_filter_idempotent (F : Filter)
    (h : (F.timelineNotTypes.getD []).count "m.room.encrypted" ≤ 1) :
    sanitize_filter (sanitize_filter F) = sanitize_filter F := by
  obtain ⟨room⟩ := F
  cases room with
  | none => rfl
  | some rf =>
    obtain ⟨tl⟩ := rf
    cases tl with
    | none => rfl
    | some t =>
      obtain ⟨ty, nty⟩ := t
      have hcount : (nty.getD []).count "m.room.encrypted" ≤ 1 := by
        simpa [Filter.timelineNotTypes] using h
      rw [sanitize_filter_timeline, sanitize_filter_timeline,
          typesStep_idem, notTypesStep_idem nty hcount]

/-- Witness for `sanitize_filter_idempotent` at a concrete filter whose
`not_types` holds one occurrence of `"m.room.encrypted"`. -/
theorem sanitize_filter_idempotent_witness :
    sanitize_filter (sanitize_filter ⟨some ⟨some ⟨some ["m.room.message"], some ["m.room.encrypted"]⟩⟩⟩) =
      sanitize_filter ⟨some ⟨some ⟨some ["m.room.message"], some ["m.room.encrypted"]⟩⟩⟩ :=
  sanitize_filter_idempotent ⟨some ⟨some ⟨some ["m.room.message"], some ["m.room.encrypted"]⟩⟩⟩
    (by decide)

theorem decrypt_loop_all_fail (strict : Nat → DecryptOutcome α) :
    ∀ (fuel start : Nat), (∀ i, i < fuel → strict (start + i) = .encryptionError) →
      decrypt_loop strict start fuel = none := by
  intro fuel
  induction fuel with
  | zero => intro start h; rfl
  | succ n ih =>
    intro start h
    have h0 : strict start = .encryptionError := by simpa using h 0 n.succ_pos
    have hrest : ∀ i, i < n → strict (start + 1 + i) = .encryptionError := by
      intro i hi
      have heq : start + 1 + i = start + (i + 1) := by omega
      rw [heq]
      exact h (i + 1) (by omega)
    simp [decrypt_loop, h0, ih (start + 1) hrest]

theorem decrypt_loop_first_success (strict : Nat → DecryptOutcome α) :
    ∀ (fuel start k : Nat) (v : α), k < fuel → strict (start + k) = .success v →
      (∀ i, i < k → strict (start + i) = .encryptionError) →
      decrypt_loop strict start fuel = some v := by
  intro fuel
  induction fuel with
  | zero => intro start k v hk; exact absurd hk (Nat.not_lt_zero k)
  | succ n ih =>
    intro start k v hk hs hf
    cases k with
    | zero =>
      have h0 : strict start = .success v := by simpa using hs
      simp [decrypt_loop, h0]
    | succ m =>
      have h0 : strict start = .encryptionError := by simpa using hf 0 m.succ_pos
      simp only [decrypt_loop, h0]
      refine ih (start + 1) m v (by omega) ?_ ?_
      · have heq : start + 1 + m = start + (m + 1) := by omega
        rw [heq]; exact hs
      · intro i hi
        have heq : start + 1 + i = start + (i + 1) := by omega
        rw [heq]; exact hf (i + 1) (by omega)

/-- Claim C3: `decrypt_body` picks the mode-appropriate strict decryption,
retries it across `synced` edges until a strict attempt succeeds — returning
that attempt's result — and when every strict attempt within the
`decryption_timeout` budget fails (the budget is modelled by `fuel`, the
number of strict attempts the wall clock admits) it returns the single
lenient call's result, so a decryption shortfall is never surfaced as an
error: the function is total in the body type. -/
theorem decrypt_body_correct (c : DecryptClient α) (fuel : Nat) (sync_mode : Bool) :
    ((∀ i, i < fuel →
        (if sync_mode then c.decrypt_sync_strict else c.decrypt_messages_strict) i =
          .encryptionError) →
      decrypt_body c fuel sync_mode =
        (if sync_mode then c.decrypt_sync_lenient else c.decrypt_messages_lenient)) ∧
    (∀ k v, k < fuel →
      (if sync_mode then c.decrypt_sync_strict else c.decrypt_messages_strict) k = .success v →
      (∀ i, i < k →
        (if sync_mode then c.decrypt_sync_strict else c.decrypt_messages_strict) i =
          .encryptionError) →
      decrypt_body c fuel sync_mode = v) := by
  constructor
  · intro h
    have hl := decrypt_loop_all_fail
      (if sync_mode then c.decrypt_sync_strict else c.decrypt_messages_strict) fuel 0
      (fun i hi => by simpa using h i hi)
    simp [decrypt_body, hl]
  · intro k v hk hs hf
    have hl := decrypt_loop_first_success
      (if sync_mode then c.decrypt_sync_strict else c.decrypt_messages_strict) fuel 0 k v hk
      (by simpa using hs) (fun i hi => by simpa using hf i hi)
    simp [decrypt_body, hl]

/-- A decryption client whose sync-mode strict attempts always fail and whose
messages-mode strict attempt succeeds on the second try. -/
def raceClient : DecryptClient Nat :=
  { decrypt_sync_strict := fun _ => .encryptionError
    decrypt_sync_lenient := 42
    decrypt_messages_strict := fun i => if i = 0 then .encryptionError else .success 7
    decrypt_messages_lenient := 0 }

/-- Witness for `decrypt_body_correct`: with every strict attempt failing the
lenient result is returned; with the second strict attempt succeeding its
value is returned. -/
theorem decrypt_body_correct_witness :
    decrypt_body raceClient 3 true = 42 ∧ decrypt_body raceClient 3 false = 7 := by
  constructor
  · exact (decrypt_body_correct raceClient 3 true).1 (fun i _ => rfl)
  · exact (decrypt_body_correct raceClient 3 false).2 1 7 (by omega) rfl
      (fun i hi => by
        have hz : i = 0 := by omega
        subst hz
        rfl)

/-- Claim C5, counterexample: a Send request whose body is not valid JSON but
whose room is not in the shadow client's room table is not answered with
400 M_NOT_JSON — it falls through to the catch-all forward, body and all. -/
theorem send_unknown_room_not_json_cex :
    send_message aliceState (sendReq "DOWNTOKEN" "!unknown:example.org" none)
      (.ok 200 "t" "b") = .forward none ∧
    send_message aliceState (sendReq "DOWNTOKEN" "!unknown:example.org" none)
      (.ok 200 "t" "b") ≠ .reply not_json := by
  exact ⟨rfl, by decide⟩

/-- Claim C5 (amended): a body that fails to parse as JSON draws
400 M_NOT_JSON from Filter once its token check has passed, and from Send
once authentication has passed *and the room is known and encrypted*; Login
replies 500 with the same M_NOT_JSON body; in each such case the reply body
is exactly the M_NOT_JSON JSON text and the handler replies directly instead
of forwarding. -/
theorem not_json_responses (st : DaemonState) (reqF : Request Filter)
    (reqS : Request String) (reqL : Request LoginBody) (c : PanClient)
    (room : PanRoom) (sr : RoomSendResult) :
    (get_access_token reqF ≠ "" → reqF.jsonBody = none →
      filter st reqF = .reply not_json) ∧
    (authenticate st reqS = .ok c →
      alookup c.rooms ((alookup reqS.matchInfo "room_id").getD "") = some room →
      room.encrypted = true → reqS.jsonBody = none →
      send_message st reqS sr = .reply not_json) ∧
    (reqL.jsonBody = none → login reqL = .reply ⟨500, notJsonText, none⟩) ∧
    not_json = ⟨400, notJsonText, none⟩ := by
  refine ⟨?_, ?_, ?_, rfl⟩
  · intro h1 h2
    simp [filter, h1, h2]
  · intro hauth hroom henc hbody
    simp [send_message, hauth, hroom, henc, hbody]
  · intro h
    simp [login, h]

/-- Witness for `not_json_responses` against the running-client state. -/
theorem not_json_responses_witness :
    filter aliceState (filterReq "DOWNTOKEN" none) = .reply not_json ∧
    send_message aliceState (sendReq "DOWNTOKEN" "!enc:example.org" none) (.ok 200 "t" "b") =
      .reply not_json ∧
    login ⟨"POST", "/_matrix/client/r0/login", [], [], "not json", none, []⟩ =
      .reply ⟨500, notJsonText, none⟩ := by
  have h := not_json_responses aliceState (filterReq "DOWNTOKEN" none)
    (sendReq "DOWNTOKEN" "!enc:example.org" none)
    ⟨"POST", "/_matrix/client/r0/login", [], [], "not json", none, []⟩
    alice ⟨true⟩ (.ok 200 "t" "b")
  exact ⟨h.1 (by decide) rfl, h.2.1 rfl rfl rfl rfl, h.2.2.1 rfl⟩

/-- Claim C6: after authentication, `send_message` falls through to the
catch-all verbatim forward when the room is unknown, forwards with the
shadow client's token when the room is known and unencrypted, and for an
encrypted room hands the parsed body to `room_send` with the path's room id,
event type and transaction id, translating the SDK outcome — connection
error to 500, send-retry exhaustion to 503, success to the transport
response's status, content type and body. -/
theorem send_message_spec (st : DaemonState) (reqS : Request String)
    (c : PanClient) (sr : RoomSendResult)
    (hauth : authenticate st reqS = .ok c) :
    (alookup c.rooms ((alookup reqS.matchInfo "room_id").getD "") = none →
      send_message st reqS sr = .forward none) ∧
    (∀ room, alookup c.rooms ((alookup reqS.matchInfo "room_id").getD "") = some room →
      room.encrypted = false → send_message st reqS sr = .forward (some c.access_token)) ∧
    (∀ room content, alookup c.rooms ((alookup reqS.matchInfo "room_id").getD "") = some room →
      room.encrypted = true → reqS.jsonBody = some content →
      send_message st reqS sr =
        .roomSend ((alookup reqS.matchInfo "room_id").getD "")
          ((alookup reqS.matchInfo "event_type").getD "")
          ((alookup reqS.matchInfo "txnid").getD "") content (room_send_response sr)) ∧
    (∀ e, room_send_response (.clientConnectionError e) = ⟨500, e, none⟩) ∧
    (∀ e, room_send_response (.sendRetryError e) = ⟨503, e, none⟩) ∧
    (∀ s ct b, room_send_response (.ok s ct b) = ⟨s, b, some ct⟩) := by
  refine ⟨?_, ?_, ?_, fun e => rfl, fun e => rfl, fun s ct b => rfl⟩
  · intro hroom
    simp [send_message, hauth, hroom]
  · intro room hroom henc
    simp [send_message, hauth, hroom, henc]
  · intro room content hroom henc hbody
    simp [send_message, hauth, hroom, henc, hbody]

/-- Witness for `send_message_spec`: the three branches at concrete requests
against the running-client state. -/
theorem send_message_spec_witness :
    send_message aliceState (sendReq "DOWNTOKEN" "!nowhere:example.org" (some "x"))
      (.ok 200 "t" "b") = .forward none ∧
    send_message aliceState (sendReq "DOWNTOKEN" "!plain:example.org" (some "x"))
      (.ok 200 "t" "b") = .forward (some "SHADOWTOKEN") ∧
    send_message aliceState (sendReq "DOWNTOKEN" "!enc:example.org" (some "hello"))
      (.sendRetryError "gave up") =
      .roomSend "!enc:example.org" "m.room.message" "1" "hello" ⟨503, "gave up", none⟩ := by
  have h1 := send_message_spec aliceState
    (sendReq "DOWNTOKEN" "!nowhere:example.org" (some "x")) alice (.ok 200 "t" "b") rfl
  have h2 := send_message_spec aliceState
    (sendReq "DOWNTOKEN" "!plain:example.org" (some "x")) alice (.ok 200 "t" "b") rfl
  have h3 := send_message_spec aliceState
    (sendReq "DOWNTOKEN" "!enc:example.org" (some "hello")) alice (.sendRetryError "gave up") rfl
  exact ⟨h1.1 rfl, h2.2.1 ⟨false⟩ rfl rfl, h3.2.2.1 ⟨true⟩ "hello" rfl rfl rfl⟩

/-- Claim C9: `receive_message` fetches the shadow client with
`pan_clients.get(message.pan_user)`, which yields `None` for an unknown
`pan_user`; no branch handles `None`, so the dispatch raises
`AttributeError` instead of emitting a `DaemonResponse` — shown here for a
device-verify and a key-export message against an empty client table. -/
theorem receive_message_unknown_user_raises :
    receive_message emptyState
      (.deviceVerify "7" "@ghost:example.org" "@bob:example.org" "BOBDEV") =
      .raised "AttributeError" ∧
    receive_message emptyState
      (.exportKeys "8" "@ghost:example.org" "/tmp/keys" "passphrase") =
      .raised "AttributeError" ∧
    receive_message aliceState
      (.deviceVerify "9" "@alice:example.org" "@nobody:example.org" "NODEV") =
      .completed [⟨"9", "@alice:example.org", "m.unknown_device",
        "No device found for @nobody:example.org and NODEV"⟩] := by
  exact ⟨rfl, rfl, rfl⟩

/-- Claim C10: a token present in `client_info` whose bound user has no entry
in `pan_clients` is answered with 401 M_UNKNOWN_TOKEN by Sync, Messages and
Send, exactly as a token never seen: both lookups sit in one
`try/except KeyError`. -/
theorem stale_binding_unknown_token (st : DaemonState)
    (reqG : Request Unit) (reqS : Request String)
    (ci ci' : ClientInfo) (sr : RoomSendResult)
    (h1 : get_access_token reqG ≠ "")
    (h2 : alookup st.client_info (get_access_token reqG) = some ci)
    (h3 : alookup st.pan_clients ci.user_id = none)
    (h1' : get_access_token reqS ≠ "")
    (h2' : alookup st.client_info (get_access_token reqS) = some ci')
    (h3' : alookup st.pan_clients ci'.user_id = none) :
    sync st reqG = .reply unknown_token ∧
    messages st reqG = .reply unknown_token ∧
    send_message st reqS sr = .reply unknown_token := by
  refine ⟨?_, ?_, ?_⟩
  · simp [sync, authenticate_no_client st reqG ci h1 h2 h3]
  · simp [messages, authenticate_no_client st reqG ci h1 h2 h3]
  · simp [send_message, authenticate_no_client st reqS ci' h1' h2' h3']

/-- Claim C7: a forwarded request preserves the method, appends the original
path to the upstream base URL, keeps the query parameters and all headers
except `Host` (and except `Content-Length` exactly when a substituted body is
supplied, in which case that body is sent, otherwise the original raw body);
when a replacement token is supplied, exactly the `Authorization` header (if
present, rewritten to `Bearer <token>`) and the `access_token` query
parameter (if present, rewritten to the token) change, and an absent header
or parameter is not added.  `params := none` is the call shape of the plain
forward; a supplied empty-string body or token counts as absent in the
source's truthiness tests, so the two hypotheses exclude those. -/
theorem forward_request_spec (hs : String) (request : Request β)
    (data token : Option String) (hd : data ≠ some "") (ht : token ≠ some "") :
    (forward_request hs request none data token).method = request.method ∧
    (forward_request hs request none data token).url = hs ++ request.path ∧
    (forward_request hs request none data token).body = data.getD request.rawBody ∧
    alookup (forward_request hs request none data token).headers "Host" = none ∧
    (data = none →
      alookup (forward_request hs request none data token).headers "Content-Length" =
        alookup request.headers "Content-Length") ∧
    (data ≠ none →
      alookup (forward_request hs request none data token).headers "Content-Length" = none) ∧
    (∀ k, k ≠ "Host" → k ≠ "Content-Length" → k ≠ "Authorization" →
      alookup (forward_request hs request none data token).headers k =
        alookup request.headers k) ∧
    (token = none →
      alookup (forward_request hs request none data token).headers "Authorization" =
        alookup request.headers "Authorization") ∧
    (∀ t, token = some t → (alookup request.headers "Authorization").isSome →
      alookup (forward_request hs request none data token).headers "Authorization" =
        some ("Bearer " ++ t)) ∧
    (∀ t, token = some t → alookup request.headers "Authorization" = none →
      alookup (forward_request hs request none data token).headers "Authorization" = none) ∧
    (∀ k, k ≠ "access_token" →
      alookup (forward_request hs request none data token).params k =
        alookup request.query k) ∧
    (token = none →
      alookup (forward_request hs request none data token).params "access_token" =
        alookup request.query "access_token") ∧
    (∀ t, token = some t → (alookup request.query "access_token").isSome →
      alookup (forward_request hs request none data token).params "access_token" = some t) ∧
    (∀ t, token = some t → alookup request.query "access_token" = none →
      alookup (forward_request hs request none data token).params "access_token" = none) := by
  rcases token with _ | t
  · rcases data with _ | d
    · rw [forward_request_plain]
      exact ⟨rfl, rfl, rfl, alookup_removeKey_self _ _,
        fun _ => alookup_removeKey_ne _ _ _ (by decide),
        fun hc => absurd rfl hc,
        fun k hk _ _ => alookup_removeKey_ne _ _ _ hk,
        fun _ => alookup_removeKey_ne _ _ _ (by decide),
        fun t' ht' => Option.noConfusion ht', fun t' ht' => Option.noConfusion ht',
        fun k _ => rfl, fun _ => rfl,
        fun t' ht' => Option.noConfusion ht', fun t' ht' => Option.noConfusion ht'⟩
    · have hdne : d ≠ "" := fun hc => hd (congrArg some hc)
      rw [forward_request_with_data hs request d hdne]
      refine ⟨rfl, rfl, rfl, ?_, fun hc => Option.noConfusion hc, fun _ => alookup_removeKey_self _ _,
        fun k hk hkCL _ => ?_, fun _ => ?_,
        fun t' ht' => Option.noConfusion ht', fun t' ht' => Option.noConfusion ht',
        fun k _ => rfl, fun _ => rfl,
        fun t' ht' => Option.noConfusion ht', fun t' ht' => Option.noConfusion ht'⟩
      · rw [alookup_removeKey_ne _ _ _ (by decide)]
        exact alookup_removeKey_self _ _
      · rw [alookup_removeKey_ne _ _ _ hkCL]
        exact alookup_removeKey_ne _ _ _ hk
      · rw [alookup_removeKey_ne _ _ _ (by decide)]
        exact alookup_removeKey_ne _ _ _ (by decide)
  · have htne : t ≠ "" := fun hc => ht (congrArg some hc)
    rcases data with _ | d
    · rw [forward_request_with_token hs request t htne]
      refine ⟨rfl, rfl, rfl, ?_, fun _ => ?_, fun hc => absurd rfl hc,
        fun k hk _ hkA => ?_, fun hc => Option.noConfusion hc,
        fun t' ht' hsome => ?_, fun t' ht' hnone => ?_,
        fun k hk => alookup_condSet_ne _ _ _ _ hk, fun hc => Option.noConfusion hc,
        fun t' ht' hsome => ?_, fun t' ht' hnone => ?_⟩
      · rw [alookup_condSet_ne _ _ _ _ (by decide)]
        exact alookup_removeKey_self _ _
      · rw [alookup_condSet_ne _ _ _ _ (by decide)]
        exact alookup_removeKey_ne _ _ _ (by decide)
      · rw [alookup_condSet_ne _ _ _ _ hkA]
        exact alookup_removeKey_ne _ _ _ hk
      · injection ht' with he
        subst he
        refine alookup_condSet_isSome _ _ _ ?_
        rw [alookup_removeKey_ne _ _ _ (by decide)]
        exact hsome
      · injection ht' with he
        subst he
        refine alookup_condSet_none _ _ _ ?_
        rw [alookup_removeKey_ne _ _ _ (by decide)]
        exact hnone
      · injection ht' with he
        subst he
        exact alookup_condSet_isSome _ _ _ hsome
      · injection ht' with he
        subst he
        exact alookup_condSet_none _ _ _ hnone
    · have hdne : d ≠ "" := fun hc => hd (congrArg some hc)
      rw [forward_request_with_token_data hs request t d htne hdne]
      refine ⟨rfl, rfl, rfl, ?_, fun hc => Option.noConfusion hc, fun _ => alookup_removeKey_self _ _,
        fun k hk hkCL hkA => ?_, fun hc => Option.noConfusion hc,
        fun t' ht' hsome => ?_, fun t' ht' hnone => ?_,
        fun k hk => alookup_condSet_ne _ _ _ _ hk, fun hc => Option.noConfusion hc,
        fun t' ht' hsome => ?_, fun t' ht' hnone => ?_⟩
      · rw [alookup_removeKey_ne _ _ _ (by decide), alookup_condSet_ne _ _ _ _ (by decide)]
        exact alookup_removeKey_self _ _
      · rw [alookup_removeKey_ne _ _ _ hkCL, alookup_condSet_ne _ _ _ _ hkA]
        exact alookup_removeKey_ne _ _ _ hk
      · injection ht' with he
        subst he
        rw [alookup_removeKey_ne _ _ _ (by decide)]
        refine alookup_condSet_isSome _ _ _ ?_
        rw [alookup_removeKey_ne _ _ _ (by decide)]
        exact hsome
      · injection ht' with he
        subst he
        rw [alookup_removeKey_ne _ _ _ (by decide)]
        refine alookup_condSet_none _ _ _ ?_
        rw [alookup_removeKey_ne _ _ _ (by decide)]
        exact hnone
      · injection ht' with he
        subst he
        exact alookup_condSet_isSome _ _ _ hsome
      · injection ht' with he
        subst he
        exact alookup_condSet_none _ _ _ hnone

/-- A request with a `Host` header, an `Authorization` header, a
`Content-Length` header, a custom header, an `access_token` query parameter
and one further parameter. -/
def fwdReq : Request Unit :=
  { method := "GET", path := "/_matrix/client/r0/sync"
    query := [("access_token", "old"), ("since", "s1")]
    headers := [("Host", "proxy"), ("Authorization", "Bearer old"),
                ("Content-Length", "3"), ("X-Custom", "v")]
    rawBody := "", jsonBody := none, matchInfo := [] }

/-- Witness for `forward_request_spec` at a concrete request with a
substituted body and a replacement token. -/
theorem forward_request_spec_witness :
    (forward_request "https://hs" fwdReq none (some "NEWBODY") (some "tok")).method = "GET" ∧
    (forward_request "https://hs" fwdReq none (some "NEWBODY") (some "tok")).url =
      "https://hs/_matrix/client/r0/sync" ∧
    (forward_request "https://hs" fwdReq none (some "NEWBODY") (some "tok")).body = "NEWBODY" ∧
    alookup (forward_request "https://hs" fwdReq none (some "NEWBODY") (some "tok")).headers
      "Host" = none ∧
    alookup (forward_request "https://hs" fwdReq none (some "NEWBODY") (some "tok")).headers
      "Content-Length" = none ∧
    alookup (forward_request "https://hs" fwdReq none (some "NEWBODY") (some "tok")).headers
      "X-Custom" = some "v" ∧
    alookup (forward_request "https://hs" fwdReq none (some "NEWBODY") (some "tok")).headers
      "Authorization" = some "Bearer tok" ∧
    alookup (forward_request "https://hs" fwdReq none (some "NEWBODY") (some "tok")).params
      "since" = some "s1" ∧
    alookup (forward_request "https://hs" fwdReq none (some "NEWBODY") (some "tok")).params
      "access_token" = some "tok" := by
  have h := forward_request_spec "https://hs" fwdReq (some "NEWBODY") (some "tok")
    (by decide) (by decide)
  refine ⟨h.1, ?_, h.2.2.1, h.2.2.2.1, h.2.2.2.2.2.1 (by decide), ?_, ?_, ?_,
    h.2.2.2.2.2.2.2.2.2.2.2.2.1 "tok" rfl (by decide)⟩
  · rw [h.2.1]
    decide
  · rw [h.2.2.2.2.2.2.1 "X-Custom" (by decide) (by decide) (by decide)]
    decide
  · rw [h.2.2.2.2.2.2.2.2.1 "tok" rfl (by decide)]
    decide
  · rw [h.2.2.2.2.2.2.2.2.2.2.1 "since" (by decide)]
    decide

/-- Witness for `stale_binding_unknown_token` against the state with a
recorded binding but no shadow client. -/
theorem stale_binding_unknown_token_witness :
    sync staleState (getReq [("access_token", "DOWNTOKEN")] []) = .reply unknown_token ∧
    messages staleState (getReq [("access_token", "DOWNTOKEN")] []) = .reply unknown_token ∧
    send_message staleState (sendReq "DOWNTOKEN" "!r:h" none) (.ok 200 "t" "b") =
      .reply unknown_token :=
  stale_binding_unknown_token staleState (getReq [("access_token", "DOWNTOKEN")] [])
    (sendReq "DOWNTOKEN" "!r:h" none)
    ⟨"@alice:example.org", "DOWNTOKEN"⟩ ⟨"@alice:example.org", "DOWNTOKEN"⟩ (.ok 200 "t" "b")
    (by decide) rfl rfl (by decide) rfl rfl

end Pantalaimon
